import Mathlib

/-!
# Verification of the FullWash BLE configuration tool

A shallow embedding of `src/tools/ble_config_tool.py`.

The Python program talks to a remote BLE device through the `bleak`
library.  We model the external world (the BLE stack and the remote
device) as an environment `Env` of oracles: every remote operation
(connect, GATT write, GATT read, scan discovery) is indexed by a global
operation counter, so each successive remote call may behave
differently, and every remote call may either succeed or raise an
exception (modelled as `Except String`, the string being the exception
message that Python would print).

Program state that the Python code keeps implicitly (the `self.client`
handle, whether the client is connected, everything printed so far, the
sequence of remote calls made) is threaded explicitly through a `RunSt`
record, which also records an ordered trace of observable events.

Byte values exchanged over GATT are modelled as the decoded UTF-8
strings the Python code immediately converts them to; a decode failure
is folded into the read oracle's exception case.  `bleak`'s
`disconnect` call in the model always succeeds: it is a cleanup call
whose failure modes the program does not distinguish.
-/

/-- The three GATT characteristics the tool uses
(`AUTH_CHAR_UUID`, `MACHINE_NUM_CHAR_UUID`, `STATUS_CHAR_UUID`). -/
inductive CharUuid where
  | auth
  | machineNum
  | status
deriving DecidableEq, Repr

/-- A discovered BLE device as seen by `BleakScanner.discover`:
an optional advertised name and an address. -/
structure Device where
  name : Option String
  address : String
deriving DecidableEq, Repr

/-- Observable events of one command invocation, in order:
remote calls, fixed sleeps, console prints, and `parser.print_help()`. -/
inductive Event where
  | connect (addr : String)
  | writeChar (c : CharUuid) (value : String)
  | readChar (c : CharUuid)
  | sleep
  | discover (timeoutSecs : Nat)
  | disconnectCall
  | print (s : String)
  | printHelp
deriving DecidableEq, Repr

/-- The environment: oracles for every fallible remote operation.
Each oracle takes the index of the remote call (the value of the
global operation counter when the call is made), so successive calls
may answer differently. -/
structure Env where
  /-- Outcome of `BleakClient.connect` at a given call index. -/
  connectRes : Nat → Except String Unit
  /-- Outcome of `client.write_gatt_char uuid value` at a given call index. -/
  writeRes : Nat → CharUuid → String → Except String Unit
  /-- Outcome of `client.read_gatt_char uuid` at a given call index:
  an exception or the decoded UTF-8 string. -/
  readRes : Nat → CharUuid → Except String String
  /-- Outcome of `BleakScanner.discover`. -/
  discoverRes : Except String (List Device)

/-- The state threaded through one command invocation. -/
structure RunSt where
  /-- Number of remote calls made so far. -/
  ops : Nat
  /-- Whether `self.client` has been assigned (it is assigned before
  `await self.client.connect()` is attempted). -/
  clientSet : Bool
  /-- Whether `self.client.is_connected` holds. -/
  connected : Bool
  /-- Trace of observable events, oldest first. -/
  trace : List Event
deriving Repr

/-- The state at the start of a command: fresh `FullWashBLEConfig`
with `self.client = None`. -/
def initSt : RunSt := ⟨0, false, false, []⟩

/-- `DEFAULT_DEVICE_NAME = "FullWash Machine"`. -/
def DEFAULT_DEVICE_NAME : String := "FullWash Machine"

/-- `DEFAULT_PASSWORD = "fullwash2025"`. -/
def DEFAULT_PASSWORD : String := "fullwash2025"

/-- The fixed discovery window `timeout=5.0` of
`BleakScanner.discover` (seconds, the value is integral). -/
def SCAN_TIMEOUT_SECS : Nat := 5

/-- Python's substring test `needle in hay` on strings. -/
def strContains (hay needle : String) : Bool :=
  decide (needle.data <:+: hay.data)

/-- Python's `x or dflt` on an optional string: `None` and the empty
string are falsy. -/
def pyOr (x : Option String) (dflt : String) : String :=
  match x with
  | none => dflt
  | some s => if s = "" then dflt else s

/-- Python's `f"{s:30}"`: left-justify to a minimum width with spaces. -/
def padRight (s : String) (w : Nat) : String :=
  s ++ String.mk (List.replicate (w - s.length) ' ')

/-- A `print(...)` call. -/
def printSt (st : RunSt) (s : String) : RunSt :=
  { st with trace := st.trace ++ [Event.print s] }

/-- An `await asyncio.sleep(0.5)` call. -/
def sleepSt (st : RunSt) : RunSt :=
  { st with trace := st.trace ++ [Event.sleep] }

/-- An `await self.client.write_gatt_char(uuid, value)` call:
consult the write oracle at the current call index. -/
def writeStep (env : Env) (c : CharUuid) (v : String) (st : RunSt) :
    Except String Unit × RunSt :=
  (env.writeRes st.ops c v,
   { st with ops := st.ops + 1, trace := st.trace ++ [Event.writeChar c v] })

/-- An `await self.client.read_gatt_char(uuid)` call (the decoded
string), consulting the read oracle at the current call index. -/
def readStep (env : Env) (c : CharUuid) (st : RunSt) :
    Except String String × RunSt :=
  (env.readRes st.ops c,
   { st with ops := st.ops + 1, trace := st.trace ++ [Event.readChar c] })

/-- `FullWashBLEConfig.connect`: print, assign `self.client`, then
`await self.client.connect()` (fallible), then print on success. -/
def connectStep (env : Env) (addr : String) (st : RunSt) :
    Except String Unit × RunSt :=
  let st1 := printSt st ("Connecting to " ++ addr ++ "...")
  let st2 : RunSt :=
    { st1 with
      clientSet := true
      ops := st1.ops + 1
      trace := st1.trace ++ [Event.connect addr] }
  match env.connectRes st1.ops with
  | Except.error e => (Except.error e, st2)
  | Except.ok _ =>
      (Except.ok (), printSt { st2 with connected := true } "Connected successfully!")

/-- `FullWashBLEConfig.disconnect`:
`if self.client and self.client.is_connected: await self.client.disconnect()`. -/
def disconnectStep (st : RunSt) : RunSt :=
  if st.clientSet && st.connected then
    printSt
      { st with
        connected := false
        trace := st.trace ++ [Event.disconnectCall] } "Disconnected."
  else st

/-- `FullWashBLEConfig.authenticate`: write the password to the auth
characteristic, sleep, read the status characteristic, and succeed
iff the status string contains `"Authenticated"`. -/
def authenticate (env : Env) (password : String) (st : RunSt) :
    Except String Bool × RunSt :=
  let st := printSt st "Authenticating..."
  match writeStep env CharUuid.auth password st with
  | (Except.error e, st) => (Except.error e, st)
  | (Except.ok _, st) =>
    let st := sleepSt st
    match readStep env CharUuid.status st with
    | (Except.error e, st) => (Except.error e, st)
    | (Except.ok statusStr, st) =>
      let st := printSt st ("Status: " ++ statusStr)
      if strContains statusStr "Authenticated" then
        (Except.ok true, printSt st "✓ Authentication successful!")
      else
        (Except.ok false, printSt st "✗ Authentication failed!")

/-- `FullWashBLEConfig.read_machine_number`: read the machine-number
characteristic and return the decoded string. -/
def read_machine_number (env : Env) (st : RunSt) :
    Except String String × RunSt :=
  readStep env CharUuid.machineNum st

/-- `FullWashBLEConfig.write_machine_number`: write `str(number)` to
the machine-number characteristic, sleep, read the status
characteristic, and succeed iff the lower-cased status string contains
`"success"`.  The argument is the already-stringified value: at the
only call site the Python `number` is the CLI argument string, and
`str` on a string is the identity. -/
def write_machine_number (env : Env) (number : String) (st : RunSt) :
    Except String Bool × RunSt :=
  let st := printSt st ("Setting machine number to: " ++ number)
  match writeStep env CharUuid.machineNum number st with
  | (Except.error e, st) => (Except.error e, st)
  | (Except.ok _, st) =>
    let st := sleepSt st
    match readStep env CharUuid.status st with
    | (Except.error e, st) => (Except.error e, st)
    | (Except.ok statusStr, st) =>
      let st := printSt st ("Status: " ++ statusStr)
      if strContains statusStr.toLower "success" then
        (Except.ok true,
         printSt (printSt st "✓ Machine number updated successfully!")
           "⚠️  RESTART THE MACHINE for changes to take effect")
      else
        (Except.ok false, printSt st "✗ Failed to update machine number")

/-- `FullWashBLEConfig.get_status`: read the status characteristic. -/
def get_status (env : Env) (st : RunSt) : Except String String × RunSt :=
  readStep env CharUuid.status st

/-- The `try`-block of `read_configuration`: connect, authenticate,
and on success read and print the machine number. -/
def readConfigBody (env : Env) (addr password : String) (st : RunSt) :
    Except String Unit × RunSt :=
  match connectStep env addr st with
  | (Except.error e, st) => (Except.error e, st)
  | (Except.ok _, st) =>
    match authenticate env password st with
    | (Except.error e, st) => (Except.error e, st)
    | (Except.ok false, st) => (Except.ok (), st)
    | (Except.ok true, st) =>
      match read_machine_number env st with
      | (Except.error e, st) => (Except.error e, st)
      | (Except.ok machineNum, st) =>
        (Except.ok (),
         printSt (printSt st "\n📋 Current Configuration:")
           ("   Machine Number: " ++ machineNum))

/-- `read_configuration`: run the body, catch any exception at the
top level (print `Error: ...`), and disconnect in the `finally`
block.  The Python function returns `None`; only the state is
returned. -/
def read_configuration (env : Env) (addr password : String) : RunSt :=
  match readConfigBody env addr password initSt with
  | (Except.ok _, st) => disconnectStep st
  | (Except.error e, st) => disconnectStep (printSt st ("Error: " ++ e))

/-- The `try`-block of `configure_machine`: connect, authenticate
(bail out with `False` when authentication returns false), read the
current number, write the new one, and on success read it back. -/
def configureBody (env : Env) (addr number password : String) (st : RunSt) :
    Except String Bool × RunSt :=
  match connectStep env addr st with
  | (Except.error e, st) => (Except.error e, st)
  | (Except.ok _, st) =>
    match authenticate env password st with
    | (Except.error e, st) => (Except.error e, st)
    | (Except.ok false, st) =>
      (Except.ok false, printSt st "Authentication failed. Cannot configure machine.")
    | (Except.ok true, st) =>
      match read_machine_number env st with
      | (Except.error e, st) => (Except.error e, st)
      | (Except.ok currentNum, st) =>
        let st := printSt st ("Current machine number: " ++ currentNum)
        match write_machine_number env number st with
        | (Except.error e, st) => (Except.error e, st)
        | (Except.ok false, st) => (Except.ok false, st)
        | (Except.ok true, st) =>
          match read_machine_number env st with
          | (Except.error e, st) => (Except.error e, st)
          | (Except.ok newNum, st) =>
            (Except.ok true, printSt st ("Verified new machine number: " ++ newNum))

/-- `configure_machine`: run the body, catch any exception at the top
level (print `Error: ...` and return `False`), and disconnect in the
`finally` block. -/
def configure_machine (env : Env) (addr number password : String) :
    Bool × RunSt :=
  match configureBody env addr number password initSt with
  | (Except.ok b, st) => (b, disconnectStep st)
  | (Except.error e, st) => (false, disconnectStep (printSt st ("Error: " ++ e)))

/-- The separator line `"="*60`. -/
def eqLine : String := String.mk (List.replicate 60 '=')

/-- The `for device in devices` loop of `scan_devices`: collect the
devices whose advertised name contains `DEFAULT_DEVICE_NAME` into the
accumulator `fullwash` and print one line per device (name padded to
width 30, `(Unknown)` when the name is falsy). -/
def scanLoop (devices fullwash : List Device) (st : RunSt) :
    List Device × RunSt :=
  match devices with
  | [] => (fullwash, st)
  | device :: rest =>
    let is_fullwash := strContains (pyOr device.name "") DEFAULT_DEVICE_NAME
    let fullwash := if is_fullwash then fullwash ++ [device] else fullwash
    let pfx := if is_fullwash then ">>> " else "    "
    let name := pyOr device.name "(Unknown)"
    scanLoop rest fullwash
      (printSt st (pfx ++ padRight name 30 ++ " | " ++ device.address))

/-- `scan_devices`: discover for the fixed window, list every device,
and return the FullWash ones (or `[]`).  There is no exception
handler: a failure of `BleakScanner.discover` propagates. -/
def scan_devices (env : Env) (st0 : RunSt) :
    Except String (List Device) × RunSt :=
  let st := printSt st0 "Scanning for BLE devices..."
  let st : RunSt :=
    { st with
      ops := st.ops + 1
      trace := st.trace ++ [Event.discover SCAN_TIMEOUT_SECS] }
  match env.discoverRes with
  | Except.error e => (Except.error e, st)
  | Except.ok devices =>
    let st := printSt st ("\n" ++ eqLine)
    let st := printSt st "Found Devices:"
    let st := printSt st eqLine
    let p := scanLoop devices [] st
    let st := printSt p.2 eqLine
    if p.1.isEmpty then
      (Except.ok [],
       printSt (printSt (printSt (printSt (printSt (printSt
         (printSt st "\n✗ No FullWash machines found")
         "\nTroubleshooting:")
         "  1. Ensure the machine is powered on")
         "  2. Wait 5-10 seconds after power-on")
         "  3. Move closer to the device")
         "  4. Check that Bluetooth is enabled")
       "")
    else
      (Except.ok p.1,
       printSt st ("\n✓ Found " ++ toString p.1.length ++ " FullWash machine(s)"))

/-- The parsed command-line arguments (`argparse` result).
`configure` and `address` are `None` when the flag is absent;
`password` defaults to `DEFAULT_PASSWORD`. -/
structure Args where
  scan : Bool := false
  read : Bool := false
  configure : Option String := none
  address : Option String := none
  password : String := DEFAULT_PASSWORD
deriving Repr

/-- The outcome of the whole process: a normal exit with a code
(`sys.exit(1)` or falling off the end of `main`, which exits 0), or
an exception escaping `main` (which makes Python exit non-zero with a
traceback). -/
inductive ProcResult where
  | exit (code : Nat)
  | uncaught (e : String)
deriving DecidableEq, Repr

/-- `main` after argument parsing: dispatch on the flags.  Python's
`elif args.configure:` uses truthiness, so `--configure ""` falls
through to the help branch.  The results of `read_configuration` and
`configure_machine` are discarded. -/
def mainRun (env : Env) (args : Args) : ProcResult × RunSt :=
  if args.scan then
    match scan_devices env initSt with
    | (Except.ok _, st) => (ProcResult.exit 0, st)
    | (Except.error e, st) => (ProcResult.uncaught e, st)
  else if args.read then
    match args.address with
    | none =>
      (ProcResult.exit 1,
       { printSt initSt "Error: --address is required for --read" with
         trace := (printSt initSt "Error: --address is required for --read").trace
                    ++ [Event.printHelp] })
    | some addr => (ProcResult.exit 0, read_configuration env addr args.password)
  else
    match args.configure with
    | some number =>
      if number = "" then
        (ProcResult.exit 0, { initSt with trace := [Event.printHelp] })
      else
        match args.address with
        | none =>
          (ProcResult.exit 1,
           { printSt initSt "Error: --address is required for --configure" with
             trace := (printSt initSt "Error: --address is required for --configure").trace
                        ++ [Event.printHelp] })
        | some addr =>
          (ProcResult.exit 0, (configure_machine env addr number args.password).2)
    | none => (ProcResult.exit 0, { initSt with trace := [Event.printHelp] })

/-- The classification the scan loop applies to a device:
its advertised name (with `None` treated as `""`) contains
`DEFAULT_DEVICE_NAME`. -/
def isFullwashDevice (d : Device) : Bool :=
  strContains (pyOr d.name "") DEFAULT_DEVICE_NAME

/-- A device environment in which every remote call succeeds, every
status read answers `"Authenticated"`, and every machine-number read
answers `"7"`; used to instantiate theorems at concrete inputs. -/
def envAuthOK : Env :=
  ⟨fun _ => Except.ok (), fun _ _ _ => Except.ok (),
   fun _ c =>
     match c with
     | CharUuid.machineNum => Except.ok "7"
     | _ => Except.ok "Authenticated",
   Except.ok []⟩

/-- An environment in which the device answers every status read with
`"Denied"`, so authentication fails. -/
def envAuthFail : Env :=
  ⟨fun _ => Except.ok (), fun _ _ _ => Except.ok (),
   fun _ _ => Except.ok "Denied", Except.ok []⟩

/-- An environment in which connecting (and discovery) raises
`"Connection refused"`. -/
def envConnFail : Env :=
  ⟨fun _ => Except.error "Connection refused", fun _ _ _ => Except.ok (),
   fun _ _ => Except.ok "", Except.error "Connection refused"⟩

/-- An environment in which `BleakScanner.discover` raises. -/
def envBTOff : Env :=
  ⟨fun _ => Except.ok (), fun _ _ _ => Except.ok (),
   fun _ _ => Except.ok "", Except.error "Bluetooth adapter off"⟩

/-- A sample discovery result: one FullWash machine and one device
advertising no name. -/
def scanDevicesSample : List Device :=
  [⟨some "FullWash Machine 1", "AA:BB"⟩, ⟨none, "CC:DD"⟩]

/-- An environment whose discovery returns `scanDevicesSample`. -/
def envScan : Env :=
  ⟨fun _ => Except.ok (), fun _ _ _ => Except.ok (),
   fun _ _ => Except.ok "", Except.ok scanDevicesSample⟩

/-- A string is the text encoding of an integer: it is `toString k`
for some `k : Int` (Lean's decimal rendering, i.e. an optional minus
sign followed by decimal digits). -/
def isIntText (v : String) : Prop :=
  ∃ k : Int, toString k = v

lemma mem_printSt_trace {e : Event} {st : RunSt} (s : String)
    (h : e ∈ st.trace) : e ∈ (printSt st s).trace := by
  simp only [printSt, List.mem_append]
  exact Or.inl h

lemma scanLoop_fst (ds acc : List Device) (st : RunSt) :
    (scanLoop ds acc st).1 = acc ++ ds.filter isFullwashDevice := by
  induction ds generalizing acc st with
  | nil => simp [scanLoop]
  | cons d rest ih =>
    simp only [scanLoop]
    cases h : strContains (pyOr d.name "") DEFAULT_DEVICE_NAME <;>
      simp [List.filter_cons, isFullwashDevice, h, ih]

lemma scanLoop_trace_mono {e : Event} (ds : List Device)
    (acc : List Device) (st : RunSt) (h : e ∈ st.trace) :
    e ∈ (scanLoop ds acc st).2.trace := by
  induction ds generalizing acc st with
  | nil => simpa [scanLoop] using h
  | cons d rest ih =>
    simp only [scanLoop]
    exact ih _ _ (mem_printSt_trace _ h)

lemma scanLoop_prints (ds acc : List Device) (st : RunSt) (d : Device)
    (hd : d ∈ ds) :
    Event.print ((if isFullwashDevice d then ">>> " else "    ") ++
        padRight (pyOr d.name "(Unknown)") 30 ++ " | " ++ d.address) ∈
      (scanLoop ds acc st).2.trace := by
  induction ds generalizing acc st with
  | nil => cases hd
  | cons d0 rest ih =>
    rcases List.mem_cons.mp hd with h0 | h0
    · subst h0
      simp only [scanLoop]
      refine scanLoop_trace_mono _ _ _ ?_
      simp [printSt, isFullwashDevice]
    · simp only [scanLoop]
      exact ih _ _ h0

lemma scan_devices_result (env : Env) (ds : List Device)
    (h : env.discoverRes = Except.ok ds) :
    (scan_devices env initSt).1 = Except.ok (ds.filter isFullwashDevice) := by
  simp only [scan_devices, h]
  rw [scanLoop_fst]
  rcases hE : (List.filter isFullwashDevice ds).isEmpty with _ | _
  · simp [hE]
  · simp [hE, List.isEmpty_iff.mp hE]

lemma scan_devices_mem_print (env : Env) (ds : List Device) (d : Device)
    (h : env.discoverRes = Except.ok ds) (hd : d ∈ ds) :
    Event.print ((if isFullwashDevice d then ">>> " else "    ") ++
        padRight (pyOr d.name "(Unknown)") 30 ++ " | " ++ d.address) ∈
      (scan_devices env initSt).2.trace := by
  simp only [scan_devices, h]
  split
  · repeat' apply mem_printSt_trace
    exact scanLoop_prints _ _ _ _ hd
  · repeat' apply mem_printSt_trace
    exact scanLoop_prints _ _ _ _ hd

lemma scan_devices_mem_discover (env : Env) :
    Event.discover SCAN_TIMEOUT_SECS ∈ (scan_devices env initSt).2.trace := by
  rcases h : env.discoverRes with e | ds
  · simp [scan_devices, h, printSt, initSt]
  · simp only [scan_devices, h]
    split
    · repeat' apply mem_printSt_trace
      apply scanLoop_trace_mono
      simp [printSt, initSt]
    · repeat' apply mem_printSt_trace
      apply scanLoop_trace_mono
      simp [printSt, initSt]

lemma scan_devices_error (env : Env) (e : String)
    (h : env.discoverRes = Except.error e) :
    (scan_devices env initSt).1 = Except.error e := by
  simp [scan_devices, h]
lemma configure_machine_props (env : Env) (addr n pw : String) :
    ((configure_machine env addr n pw).2).connected = false ∧
    ((configure_machine env addr n pw).2).clientSet = true ∧
    (env.connectRes 0 = Except.ok () →
      Event.disconnectCall ∈ ((configure_machine env addr n pw).2).trace) ∧
    (∀ v, Event.writeChar CharUuid.machineNum v ∈
        ((configure_machine env addr n pw).2).trace → v = n) := by
  cases hc : env.connectRes 0 with
  | error e =>
    refine ⟨?_, ?_, ?_, ?_⟩ <;>
      simp [configure_machine, configureBody, authenticate, connectStep,
            write_machine_number, read_machine_number, writeStep, readStep,
            printSt, sleepSt, disconnectStep, initSt, hc]
  | ok u =>
    cases u
    cases hw : env.writeRes 1 CharUuid.auth pw with
    | error e =>
      refine ⟨?_, ?_, ?_, ?_⟩ <;>
        simp [configure_machine, configureBody, authenticate, connectStep,
              write_machine_number, read_machine_number, writeStep, readStep,
              printSt, sleepSt, disconnectStep, initSt, hc, hw]
    | ok u2 =>
      cases u2
      cases hrs : env.readRes 2 CharUuid.status with
      | error e =>
        refine ⟨?_, ?_, ?_, ?_⟩ <;>
          simp [configure_machine, configureBody, authenticate, connectStep,
                write_machine_number, read_machine_number, writeStep, readStep,
                printSt, sleepSt, disconnectStep, initSt, hc, hw, hrs]
      | ok s =>
        cases hA : strContains s "Authenticated" with
        | false =>
          refine ⟨?_, ?_, ?_, ?_⟩ <;>
            simp [configure_machine, configureBody, authenticate, connectStep,
                  write_machine_number, read_machine_number, writeStep, readStep,
                  printSt, sleepSt, disconnectStep, initSt, hc, hw, hrs, hA]
        | true =>
          cases hm : env.readRes 3 CharUuid.machineNum with
          | error e =>
            refine ⟨?_, ?_, ?_, ?_⟩ <;>
              simp [configure_machine, configureBody, authenticate, connectStep,
                    write_machine_number, read_machine_number, writeStep, readStep,
                    printSt, sleepSt, disconnectStep, initSt, hc, hw, hrs, hA, hm]
          | ok cur =>
            cases hw2 : env.writeRes 4 CharUuid.machineNum n with
            | error e =>
              refine ⟨?_, ?_, ?_, ?_⟩ <;>
                simp [configure_machine, configureBody, authenticate, connectStep,
                      write_machine_number, read_machine_number, writeStep, readStep,
                      printSt, sleepSt, disconnectStep, initSt, hc, hw, hrs, hA, hm, hw2]
            | ok u3 =>
              cases u3
              cases hrs2 : env.readRes 5 CharUuid.status with
              | error e =>
                refine ⟨?_, ?_, ?_, ?_⟩ <;>
                  simp [configure_machine, configureBody, authenticate, connectStep,
                        write_machine_number, read_machine_number, writeStep, readStep,
                        printSt, sleepSt, disconnectStep, initSt, hc, hw, hrs, hA, hm,
                        hw2, hrs2]
              | ok s2 =>
                cases hS : strContains s2.toLower "success" with
                | false =>
                  refine ⟨?_, ?_, ?_, ?_⟩ <;>
                    simp [configure_machine, configureBody, authenticate, connectStep,
                          write_machine_number, read_machine_number, writeStep, readStep,
                          printSt, sleepSt, disconnectStep, initSt, hc, hw, hrs, hA, hm,
                          hw2, hrs2, hS]
                | true =>
                  cases hm2 : env.readRes 6 CharUuid.machineNum with
                  | error e =>
                    refine ⟨?_, ?_, ?_, ?_⟩ <;>
                      simp [configure_machine, configureBody, authenticate, connectStep,
                            write_machine_number, read_machine_number, writeStep, readStep,
                            printSt, sleepSt, disconnectStep, initSt, hc, hw, hrs, hA, hm,
                            hw2, hrs2, hS, hm2]
                  | ok newNum =>
                    refine ⟨?_, ?_, ?_, ?_⟩ <;>
                      simp [configure_machine, configureBody, authenticate, connectStep,
                            write_machine_number, read_machine_number, writeStep, readStep,
                            printSt, sleepSt, disconnectStep, initSt, hc, hw, hrs, hA, hm,
                            hw2, hrs2, hS, hm2]

lemma read_configuration_props (env : Env) (addr pw : String) :
    (read_configuration env addr pw).connected = false ∧
    (env.connectRes 0 = Except.ok () →
      Event.disconnectCall ∈ (read_configuration env addr pw).trace) := by
  cases hc : env.connectRes 0 with
  | error e =>
    refine ⟨?_, ?_⟩ <;>
      simp [read_configuration, readConfigBody, authenticate, connectStep,
            read_machine_number, writeStep, readStep, printSt, sleepSt,
            disconnectStep, initSt, hc]
  | ok u =>
    cases u
    cases hw : env.writeRes 1 CharUuid.auth pw with
    | error e =>
      refine ⟨?_, ?_⟩ <;>
        simp [read_configuration, readConfigBody, authenticate, connectStep,
              read_machine_number, writeStep, readStep, printSt, sleepSt,
              disconnectStep, initSt, hc, hw]
    | ok u2 =>
      cases u2
      cases hrs : env.readRes 2 CharUuid.status with
      | error e =>
        refine ⟨?_, ?_⟩ <;>
          simp [read_configuration, readConfigBody, authenticate, connectStep,
                read_machine_number, writeStep, readStep, printSt, sleepSt,
                disconnectStep, initSt, hc, hw, hrs]
      | ok s =>
        cases hA : strContains s "Authenticated" with
        | false =>
          refine ⟨?_, ?_⟩ <;>
            simp [read_configuration, readConfigBody, authenticate, connectStep,
                  read_machine_number, writeStep, readStep, printSt, sleepSt,
                  disconnectStep, initSt, hc, hw, hrs, hA]
        | true =>
          cases hm : env.readRes 3 CharUuid.machineNum with
          | error e =>
            refine ⟨?_, ?_⟩ <;>
              simp [read_configuration, readConfigBody, authenticate, connectStep,
                    read_machine_number, writeStep, readStep, printSt, sleepSt,
                    disconnectStep, initSt, hc, hw, hrs, hA, hm]
          | ok cur =>
            refine ⟨?_, ?_⟩ <;>
              simp [read_configuration, readConfigBody, authenticate, connectStep,
                    read_machine_number, writeStep, readStep, printSt, sleepSt,
                    disconnectStep, initSt, hc, hw, hrs, hA, hm]

lemma mem_disconnectStep_trace {e : Event} {st : RunSt}
    (h : e ∈ st.trace) : e ∈ (disconnectStep st).trace := by
  unfold disconnectStep
  split
  · simp only [printSt, List.mem_append]
    exact Or.inl (Or.inl h)
  · exact h

lemma configure_machine_catches (env : Env) (addr n pw e : String)
    (h : (configureBody env addr n pw initSt).1 = Except.error e) :
    (configure_machine env addr n pw).1 = false ∧
    Event.print ("Error: " ++ e) ∈ (configure_machine env addr n pw).2.trace := by
  rcases hB : configureBody env addr n pw initSt with ⟨r, st⟩
  rw [hB] at h
  simp only at h
  subst h
  refine ⟨by simp [configure_machine, hB], ?_⟩
  simp only [configure_machine, hB]
  exact mem_disconnectStep_trace (by simp [printSt])

lemma read_configuration_catches (env : Env) (addr pw e : String)
    (h : (readConfigBody env addr pw initSt).1 = Except.error e) :
    Event.print ("Error: " ++ e) ∈ (read_configuration env addr pw).trace := by
  rcases hB : readConfigBody env addr pw initSt with ⟨r, st⟩
  rw [hB] at h
  simp only at h
  subst h
  simp only [read_configuration, hB]
  exact mem_disconnectStep_trace (by simp [printSt])

lemma scan_devices_ok_shape (env : Env) (ds : List Device)
    (h : env.discoverRes = Except.ok ds) :
    ∃ l st, scan_devices env initSt = (Except.ok l, st) := by
  simp only [scan_devices, h]
  split
  · exact ⟨_, _, rfl⟩
  · exact ⟨_, _, rfl⟩

lemma mainRun_read_missing_address (env : Env) (args : Args)
    (h1 : args.scan = false) (h2 : args.read = true)
    (h3 : args.address = none) :
    (mainRun env args).1 = ProcResult.exit 1 ∧
    Event.printHelp ∈ (mainRun env args).2.trace := by
  simp [mainRun, h1, h2, h3, printSt, initSt]

lemma mainRun_configure_missing_address (env : Env) (args : Args) (s : String)
    (h1 : args.scan = false) (h2 : args.read = false)
    (h3 : args.configure = some s) (h4 : s ≠ "")
    (h5 : args.address = none) :
    (mainRun env args).1 = ProcResult.exit 1 ∧
    Event.printHelp ∈ (mainRun env args).2.trace := by
  simp [mainRun, h1, h2, h3, h4, h5, printSt, initSt]

lemma mainRun_scan_ok (env : Env) (args : Args) (ds : List Device)
    (h1 : args.scan = true) (h2 : env.discoverRes = Except.ok ds) :
    (mainRun env args).1 = ProcResult.exit 0 := by
  obtain ⟨l, st, hs⟩ := scan_devices_ok_shape env ds h2
  simp [mainRun, h1, hs]

lemma mainRun_scan_error (env : Env) (args : Args) (e : String)
    (h1 : args.scan = true) (h2 : env.discoverRes = Except.error e) :
    (mainRun env args).1 = ProcResult.uncaught e := by
  rcases hs : scan_devices env initSt with ⟨r, st⟩
  have : r = Except.error e := by
    have := scan_devices_error env e h2
    rw [hs] at this
    exact this
  subst this
  simp [mainRun, h1, hs]

lemma mainRun_read_dispatch (env : Env) (args : Args) (a : String)
    (h1 : args.scan = false) (h2 : args.read = true)
    (h3 : args.address = some a) :
    (mainRun env args).1 = ProcResult.exit 0 := by
  simp [mainRun, h1, h2, h3]

lemma mainRun_configure_dispatch (env : Env) (args : Args) (s a : String)
    (h1 : args.scan = false) (h2 : args.read = false)
    (h3 : args.configure = some s) (h4 : s ≠ "")
    (h5 : args.address = some a) :
    (mainRun env args).1 = ProcResult.exit 0 := by
  simp [mainRun, h1, h2, h3, h4, h5]

lemma mainRun_configure_state (env : Env) (args : Args) (s a : String)
    (h1 : args.scan = false) (h2 : args.read = false)
    (h3 : args.configure = some s) (h4 : s ≠ "")
    (h5 : args.address = some a) :
    (mainRun env args).2 = (configure_machine env a s args.password).2 := by
  simp [mainRun, h1, h2, h3, h4, h5]

/-- C1: `authenticate` writes the password to the auth characteristic,
then reads the status characteristic, and returns `True` if and only
if the returned status string contains the literal substring
`"Authenticated"`; otherwise it returns `False`. -/
theorem authenticate_writes_then_checks_status
    (env : Env) (pw : String) (st : RunSt) (s : String)
    (hw : env.writeRes st.ops CharUuid.auth pw = Except.ok ())
    (hr : env.readRes (st.ops + 1) CharUuid.status = Except.ok s) :
    (authenticate env pw st).1 = Except.ok (strContains s "Authenticated") ∧
    (authenticate env pw st).2.trace =
      st.trace ++
        [Event.print "Authenticating...", Event.writeChar CharUuid.auth pw,
         Event.sleep, Event.readChar CharUuid.status,
         Event.print ("Status: " ++ s),
         if strContains s "Authenticated" then Event.print "✓ Authentication successful!"
         else Event.print "✗ Authentication failed!"] := by
  unfold authenticate writeStep readStep sleepSt printSt
  simp only [hw, hr]
  cases hA : strContains s "Authenticated" <;> simp [hA]

theorem authenticate_status_witness :
    (authenticate envAuthOK "fullwash2025" initSt).1 =
      Except.ok (strContains "Authenticated" "Authenticated") ∧
    (authenticate envAuthOK "fullwash2025" initSt).2.trace =
      initSt.trace ++
        [Event.print "Authenticating...", Event.writeChar CharUuid.auth "fullwash2025",
         Event.sleep, Event.readChar CharUuid.status,
         Event.print ("Status: " ++ "Authenticated"),
         if strContains "Authenticated" "Authenticated" then Event.print "✓ Authentication successful!"
         else Event.print "✗ Authentication failed!"] :=
  authenticate_writes_then_checks_status envAuthOK "fullwash2025" initSt "Authenticated" rfl rfl

/-- C2: `write_machine_number` writes its argument (stringified) to
the machine-number characteristic, then reads the status
characteristic, and returns `True` if and only if the lower-cased
status string contains the substring `"success"`; otherwise it
returns `False`. -/
theorem write_machine_number_checks_success
    (env : Env) (n : String) (st : RunSt) (s : String)
    (hw : env.writeRes st.ops CharUuid.machineNum n = Except.ok ())
    (hr : env.readRes (st.ops + 1) CharUuid.status = Except.ok s) :
    (write_machine_number env n st).1 = Except.ok (strContains s.toLower "success") ∧
    (write_machine_number env n st).2.trace =
      st.trace ++
        ([Event.print ("Setting machine number to: " ++ n),
          Event.writeChar CharUuid.machineNum n,
          Event.sleep, Event.readChar CharUuid.status,
          Event.print ("Status: " ++ s)] ++
         if strContains s.toLower "success" then
           [Event.print "✓ Machine number updated successfully!",
            Event.print "⚠️  RESTART THE MACHINE for changes to take effect"]
         else [Event.print "✗ Failed to update machine number"]) := by
  unfold write_machine_number writeStep readStep sleepSt printSt
  simp only [hw, hr]
  cases hS : strContains s.toLower "success" <;> simp [hS]

theorem write_machine_number_witness :
    (write_machine_number envAuthOK "42" initSt).1 =
      Except.ok (strContains (String.toLower "Authenticated") "success") ∧
    (write_machine_number envAuthOK "42" initSt).2.trace =
      initSt.trace ++
        ([Event.print ("Setting machine number to: " ++ "42"),
          Event.writeChar CharUuid.machineNum "42",
          Event.sleep, Event.readChar CharUuid.status,
          Event.print ("Status: " ++ "Authenticated")] ++
         if strContains (String.toLower "Authenticated") "success" then
           [Event.print "✓ Machine number updated successfully!",
            Event.print "⚠️  RESTART THE MACHINE for changes to take effect"]
         else [Event.print "✗ Failed to update machine number"]) :=
  write_machine_number_checks_success envAuthOK "42" initSt "Authenticated" rfl rfl

/-- C3: in every run of `configure_machine` the machine-number
characteristic is written only if the authentication status read (the
remote call at index 2) returned a string containing
`"Authenticated"`, i.e. only after `authenticate` returned `True`;
and when authentication returns `False` the command returns `False`
and performs no machine-number write. -/
theorem configure_write_gated_by_auth (env : Env) (addr n pw : String) :
    (∀ v, Event.writeChar CharUuid.machineNum v ∈ (configure_machine env addr n pw).2.trace →
       ∃ s, env.readRes 2 CharUuid.status = Except.ok s ∧
         strContains s "Authenticated" = true) ∧
    (∀ s, env.connectRes 0 = Except.ok () →
       env.writeRes 1 CharUuid.auth pw = Except.ok () →
       env.readRes 2 CharUuid.status = Except.ok s →
       strContains s "Authenticated" = false →
       (configure_machine env addr n pw).1 = false ∧
       ∀ v, Event.writeChar CharUuid.machineNum v ∉ (configure_machine env addr n pw).2.trace) := by
  constructor
  · intro v hv
    cases hc : env.connectRes 0 with
    | error e =>
      exfalso
      simp [configure_machine, configureBody, authenticate, connectStep,
            write_machine_number, read_machine_number, writeStep, readStep,
            printSt, sleepSt, disconnectStep, initSt, hc] at hv
    | ok u =>
      cases u
      cases hw : env.writeRes 1 CharUuid.auth pw with
      | error e =>
        exfalso
        simp [configure_machine, configureBody, authenticate, connectStep,
              write_machine_number, read_machine_number, writeStep, readStep,
              printSt, sleepSt, disconnectStep, initSt, hc, hw] at hv
      | ok u2 =>
        cases u2
        cases hrs : env.readRes 2 CharUuid.status with
        | error e =>
          exfalso
          simp [configure_machine, configureBody, authenticate, connectStep,
                write_machine_number, read_machine_number, writeStep, readStep,
                printSt, sleepSt, disconnectStep, initSt, hc, hw, hrs] at hv
        | ok s =>
          cases hA : strContains s "Authenticated" with
          | false =>
            exfalso
            simp [configure_machine, configureBody, authenticate, connectStep,
                  write_machine_number, read_machine_number, writeStep, readStep,
                  printSt, sleepSt, disconnectStep, initSt, hc, hw, hrs, hA] at hv
          | true => exact ⟨s, rfl, hA⟩
  · intro s hc hw hrs hA
    constructor
    · simp [configure_machine, configureBody, authenticate, connectStep,
            write_machine_number, read_machine_number, writeStep, readStep,
            printSt, sleepSt, disconnectStep, initSt, hc, hw, hrs, hA]
    · intro v
      simp [configure_machine, configureBody, authenticate, connectStep,
            write_machine_number, read_machine_number, writeStep, readStep,
            printSt, sleepSt, disconnectStep, initSt, hc, hw, hrs, hA]

theorem configure_write_gated_witness :
    (configure_machine envAuthFail "AA:BB" "42" "pw").1 = false ∧
    Event.writeChar CharUuid.machineNum "42" ∉
      (configure_machine envAuthFail "AA:BB" "42" "pw").2.trace := by
  have h := (configure_write_gated_by_auth envAuthFail "AA:BB" "42" "pw").2
    "Denied" rfl rfl rfl (by decide)
  exact ⟨h.1, h.2 "42"⟩

/-- C4: when the dispatcher reaches the read or configure command
without an address, the program prints the error text and the
argparse help and exits with status 1 (non-zero).  A configure
invocation is one whose `--configure` value is truthy (a non-empty
string), mirroring `elif args.configure:`. -/
theorem missing_address_usage_exit (env : Env) (args : Args) (s : String) :
    (args.scan = false → args.read = true → args.address = none →
      (mainRun env args).1 = ProcResult.exit 1 ∧
      Event.printHelp ∈ (mainRun env args).2.trace) ∧
    (args.scan = false → args.read = false → args.configure = some s →
      s ≠ "" → args.address = none →
      (mainRun env args).1 = ProcResult.exit 1 ∧
      Event.printHelp ∈ (mainRun env args).2.trace) :=
  ⟨fun h1 h2 h3 => mainRun_read_missing_address env args h1 h2 h3,
   fun h1 h2 h3 h4 h5 => mainRun_configure_missing_address env args s h1 h2 h3 h4 h5⟩

theorem missing_address_usage_exit_witness :
    ((mainRun envAuthOK ⟨false, true, none, none, DEFAULT_PASSWORD⟩).1 = ProcResult.exit 1 ∧
     Event.printHelp ∈ (mainRun envAuthOK ⟨false, true, none, none, DEFAULT_PASSWORD⟩).2.trace) ∧
    ((mainRun envAuthOK ⟨false, false, some "42", none, DEFAULT_PASSWORD⟩).1 = ProcResult.exit 1 ∧
     Event.printHelp ∈ (mainRun envAuthOK ⟨false, false, some "42", none, DEFAULT_PASSWORD⟩).2.trace) :=
  ⟨(missing_address_usage_exit envAuthOK ⟨false, true, none, none, DEFAULT_PASSWORD⟩ "42").1
      rfl rfl rfl,
   (missing_address_usage_exit envAuthOK ⟨false, false, some "42", none, DEFAULT_PASSWORD⟩ "42").2
      rfl rfl rfl (by decide) rfl⟩

/-- C5 counterexample: `scan_devices` has no exception handler.  With
a discovery that raises `"Bluetooth adapter off"`, the exception
propagates out of the scan command (the command's result is the
exception itself) and nothing about the failure is printed: the trace
of the run is just the initial banner print and the discover call. -/
theorem scan_uncaught_discover_error :
    (scan_devices envBTOff initSt).1 = Except.error "Bluetooth adapter off" ∧
    (scan_devices envBTOff initSt).2.trace =
      [Event.print "Scanning for BLE devices...", Event.discover SCAN_TIMEOUT_SECS] := by
  constructor <;> rfl

/-- C5 (amended): in the read and configure commands every exception
raised in the command body is caught at the top level and printed as
`Error: ...`, with `configure_machine` returning `False`; the scan
command has no handler, so a discovery failure propagates out of
`scan_devices` and out of `main`. -/
theorem command_error_handling (env : Env) (addr n pw e : String) :
    ((configureBody env addr n pw initSt).1 = Except.error e →
      (configure_machine env addr n pw).1 = false ∧
      Event.print ("Error: " ++ e) ∈ (configure_machine env addr n pw).2.trace) ∧
    ((readConfigBody env addr pw initSt).1 = Except.error e →
      Event.print ("Error: " ++ e) ∈ (read_configuration env addr pw).trace) ∧
    (env.discoverRes = Except.error e →
      (scan_devices env initSt).1 = Except.error e ∧
      (mainRun env ⟨true, false, none, none, pw⟩).1 = ProcResult.uncaught e) :=
  ⟨fun h => configure_machine_catches env addr n pw e h,
   fun h => read_configuration_catches env addr pw e h,
   fun h => ⟨scan_devices_error env e h,
             mainRun_scan_error env ⟨true, false, none, none, pw⟩ e rfl h⟩⟩

theorem command_error_handling_witness :
    ((configure_machine envConnFail "AA:BB" "42" "pw").1 = false ∧
     Event.print ("Error: " ++ "Connection refused") ∈
       (configure_machine envConnFail "AA:BB" "42" "pw").2.trace) ∧
    (Event.print ("Error: " ++ "Connection refused") ∈
       (read_configuration envConnFail "AA:BB" "pw").trace) ∧
    ((scan_devices envConnFail initSt).1 = Except.error "Connection refused" ∧
     (mainRun envConnFail ⟨true, false, none, none, "pw"⟩).1 =
       ProcResult.uncaught "Connection refused") := by
  have h := command_error_handling envConnFail "AA:BB" "42" "pw" "Connection refused"
  exact ⟨h.1 rfl, h.2.1 rfl, h.2.2 rfl⟩

/-- C6: when discovery succeeds, `scan_devices` returns exactly the
discovered devices whose advertised name (with a missing name treated
as `""`) contains the fixed product-name substring
`DEFAULT_DEVICE_NAME = "FullWash Machine"` — the filter of the
discovered list — and the discovery call uses the fixed time window. -/
theorem scan_filters_by_product_name (env : Env) (ds : List Device)
    (h : env.discoverRes = Except.ok ds) :
    (scan_devices env initSt).1 = Except.ok (ds.filter isFullwashDevice) ∧
    Event.discover SCAN_TIMEOUT_SECS ∈ (scan_devices env initSt).2.trace :=
  ⟨scan_devices_result env ds h, scan_devices_mem_discover env⟩

theorem scan_filters_witness :
    (scan_devices envScan initSt).1 =
      Except.ok (scanDevicesSample.filter isFullwashDevice) ∧
    Event.discover SCAN_TIMEOUT_SECS ∈ (scan_devices envScan initSt).2.trace :=
  scan_filters_by_product_name envScan scanDevicesSample rfl

/-- C7: in every execution of the read and configure commands —
whatever the environment does, including exception runs — the
`finally` block runs `disconnect`, so no connection remains open when
the command returns; and whenever the connection was actually opened
(the connect call succeeded), the transport disconnect call appears
in the trace before the command returns. -/
theorem commands_always_disconnect (env : Env) (addr n pw : String) :
    (read_configuration env addr pw).connected = false ∧
    ((configure_machine env addr n pw).2).connected = false ∧
    (env.connectRes 0 = Except.ok () →
      Event.disconnectCall ∈ (read_configuration env addr pw).trace ∧
      Event.disconnectCall ∈ ((configure_machine env addr n pw).2).trace) :=
  ⟨(read_configuration_props env addr pw).1,
   (configure_machine_props env addr n pw).1,
   fun h => ⟨(read_configuration_props env addr pw).2 h,
             (configure_machine_props env addr n pw).2.2.1 h⟩⟩

theorem commands_always_disconnect_witness :
    (read_configuration envAuthOK "AA:BB" "pw").connected = false ∧
    ((configure_machine envAuthOK "AA:BB" "42" "pw").2).connected = false ∧
    (Event.disconnectCall ∈ (read_configuration envAuthOK "AA:BB" "pw").trace ∧
     Event.disconnectCall ∈ ((configure_machine envAuthOK "AA:BB" "42" "pw").2).trace) := by
  have h := commands_always_disconnect envAuthOK "AA:BB" "42" "pw"
  exact ⟨h.1, h.2.1, h.2.2 rfl⟩

lemma toDigitsCore_digits :
    ∀ (f n : Nat) (l : List Char), (∀ c ∈ l, c.isDigit = true) →
      ∀ c ∈ Nat.toDigitsCore 10 f n l, c.isDigit = true := by
  intro f
  induction f with
  | zero =>
    intro n l hl c hc
    simp only [Nat.toDigitsCore] at hc
    exact hl c hc
  | succ f ih =>
    intro n l hl c hc
    have hdig : (Nat.digitChar (n % 10)).isDigit = true := by
      have h10 : n % 10 < 10 := Nat.mod_lt _ (by norm_num)
      revert h10
      generalize n % 10 = m
      intro h10
      interval_cases m <;> decide
    rw [Nat.toDigitsCore] at hc
    by_cases hn : n / 10 = 0
    · simp only [hn, if_pos rfl, reduceIte, List.mem_cons] at hc
      rcases hc with rfl | hc
      · exact hdig
      · exact hl c hc
    · simp only [hn, reduceIte, if_neg hn] at hc
      refine ih (n / 10) (Nat.digitChar (n % 10) :: l) ?_ c hc
      intro c' hc'
      rcases List.mem_cons.mp hc' with rfl | h'
      · exact hdig
      · exact hl c' h'

lemma natRepr_digits (n : Nat) : ∀ c ∈ (Nat.repr n).data, c.isDigit = true := by
  intro c hc
  have hdata : (Nat.repr n).data = Nat.toDigitsCore 10 (n + 1) n [] := by
    simp [Nat.repr, Nat.toDigits, List.asString]
  rw [hdata] at hc
  exact toDigitsCore_digits (n + 1) n [] (by simp) c hc

lemma not_isIntText_abc : ¬ isIntText "abc" := by
  rintro ⟨k, hk⟩
  cases k with
  | ofNat m =>
    have hrepr : toString (Int.ofNat m) = Nat.repr m := rfl
    rw [hrepr] at hk
    have hd := natRepr_digits m
    rw [hk] at hd
    exact absurd (hd 'a' (by decide)) (by decide)
  | negSucc m =>
    have hrepr : toString (Int.negSucc m) = "-" ++ Nat.repr (m + 1) := rfl
    rw [hrepr] at hk
    have hdata : '-' :: (Nat.repr (m + 1)).data = "abc".data := by
      simpa using congrArg String.data hk
    have habc : "abc".data = ['a', 'b', 'c'] := rfl
    rw [habc] at hdata
    injection hdata with h1 _
    exact absurd h1 (by decide)

/-- If connect succeeds, the auth write succeeds, the authentication
status read returns a string containing `"Authenticated"`, and the
pre-write machine-number read succeeds, then `configure_machine`
performs the machine-number write: the write call appears in the
trace, whatever happens afterwards. -/
lemma configure_machine_write_occurs (env : Env) (addr n pw s cur : String)
    (hc : env.connectRes 0 = Except.ok ())
    (hw : env.writeRes 1 CharUuid.auth pw = Except.ok ())
    (hrs : env.readRes 2 CharUuid.status = Except.ok s)
    (hA : strContains s "Authenticated" = true)
    (hm : env.readRes 3 CharUuid.machineNum = Except.ok cur) :
    Event.writeChar CharUuid.machineNum n ∈
      ((configure_machine env addr n pw).2).trace := by
  cases hw2 : env.writeRes 4 CharUuid.machineNum n with
  | error e =>
    simp [configure_machine, configureBody, authenticate, connectStep,
          write_machine_number, read_machine_number, writeStep, readStep,
          printSt, sleepSt, disconnectStep, initSt, hc, hw, hrs, hA, hm, hw2]
  | ok u =>
    cases u
    cases hrs2 : env.readRes 5 CharUuid.status with
    | error e =>
      simp [configure_machine, configureBody, authenticate, connectStep,
            write_machine_number, read_machine_number, writeStep, readStep,
            printSt, sleepSt, disconnectStep, initSt, hc, hw, hrs, hA, hm, hw2, hrs2]
    | ok s2 =>
      cases hS : strContains s2.toLower "success" with
      | false =>
        simp [configure_machine, configureBody, authenticate, connectStep,
              write_machine_number, read_machine_number, writeStep, readStep,
              printSt, sleepSt, disconnectStep, initSt, hc, hw, hrs, hA, hm, hw2,
              hrs2, hS]
      | true =>
        cases hm2 : env.readRes 6 CharUuid.machineNum with
        | error e =>
          simp [configure_machine, configureBody, authenticate, connectStep,
                write_machine_number, read_machine_number, writeStep, readStep,
                printSt, sleepSt, disconnectStep, initSt, hc, hw, hrs, hA, hm, hw2,
                hrs2, hS, hm2]
        | ok newNum =>
          simp [configure_machine, configureBody, authenticate, connectStep,
                write_machine_number, read_machine_number, writeStep, readStep,
                printSt, sleepSt, disconnectStep, initSt, hc, hw, hrs, hA, hm, hw2,
                hrs2, hS, hm2]

/-- C8 counterexample: the `--configure` flag is parsed without
`type=int`, so a non-numeric argument flows through unchanged:
invoking the configure command with `--configure abc` writes the
string `"abc"` — which is not the text encoding of any integer — to
the machine-number characteristic. -/
theorem configure_accepts_non_numeric :
    Event.writeChar CharUuid.machineNum "abc" ∈
      (mainRun envAuthOK ⟨false, false, some "abc", some "AA:BB", DEFAULT_PASSWORD⟩).2.trace ∧
    ¬ isIntText "abc" := by
  constructor
  · rw [mainRun_configure_state envAuthOK _ "abc" "AA:BB" rfl rfl rfl (by decide) rfl]
    exact configure_machine_write_occurs envAuthOK "AA:BB" "abc" DEFAULT_PASSWORD
      "Authenticated" "7" rfl rfl rfl (by decide) rfl
  · exact not_isIntText_abc

/-- C8 (amended): the configure argument is passed verbatim with no
numeric validation: every machine-number write performed by
`configure_machine` writes exactly the argument string (the text
encoding of an integer only when the argument happens to be one). -/
theorem configure_writes_argument_verbatim (env : Env) (addr n pw : String) :
    ∀ v, Event.writeChar CharUuid.machineNum v ∈
      ((configure_machine env addr n pw).2).trace → v = n :=
  (configure_machine_props env addr n pw).2.2.2

theorem configure_writes_argument_verbatim_witness :
    (Event.writeChar CharUuid.machineNum "42" ∈
      ((configure_machine envAuthOK "AA:BB" "42" "pw").2).trace) ∧
    ("42" : String) = "42" :=
  ⟨configure_machine_write_occurs envAuthOK "AA:BB" "42" "pw" "Authenticated" "7"
      rfl rfl rfl (by decide) rfl,
   configure_writes_argument_verbatim envAuthOK "AA:BB" "42" "pw" "42"
     (configure_machine_write_occurs envAuthOK "AA:BB" "42" "pw" "Authenticated" "7"
       rfl rfl rfl (by decide) rfl)⟩

/-- C9 counterexample: with the scan command, a discovery failure is
not mapped to exit status 0 — the exception escapes `main` and the
process exits non-zero (a traceback), refuting "exit status 0
regardless of whether the remote operation succeeded or failed". -/
theorem scan_discover_error_nonzero_exit :
    (mainRun envBTOff ⟨true, false, none, none, DEFAULT_PASSWORD⟩).1 =
      ProcResult.uncaught "Bluetooth adapter off" ∧
    (mainRun envBTOff ⟨true, false, none, none, DEFAULT_PASSWORD⟩).1 ≠
      ProcResult.exit 0 := by
  have h := mainRun_scan_error envBTOff ⟨true, false, none, none, DEFAULT_PASSWORD⟩
    "Bluetooth adapter off" rfl rfl
  refine ⟨h, ?_⟩
  rw [h]
  decide

/-- C9 (amended): whenever the dispatcher reaches the read or
configure command with an address present, the process exits 0
regardless of the remote outcome — the result of `configure_machine`
(and of `read_configuration`) is discarded, only the state survives;
the scan command exits 0 exactly when discovery itself does not
raise: a raised discovery error escapes and the process exits
non-zero. -/
theorem exit_zero_when_dispatched (env : Env) (args : Args) (s a : String)
    (ds : List Device) :
    (args.scan = false → args.read = true → args.address = some a →
       (mainRun env args).1 = ProcResult.exit 0) ∧
    (args.scan = false → args.read = false → args.configure = some s → s ≠ "" →
       args.address = some a →
       (mainRun env args).1 = ProcResult.exit 0 ∧
       (mainRun env args).2 = (configure_machine env a s args.password).2) ∧
    (args.scan = true → env.discoverRes = Except.ok ds →
       (mainRun env args).1 = ProcResult.exit 0) ∧
    (args.scan = true → ∀ e, env.discoverRes = Except.error e →
       (mainRun env args).1 = ProcResult.uncaught e) :=
  ⟨fun h1 h2 h3 => mainRun_read_dispatch env args a h1 h2 h3,
   fun h1 h2 h3 h4 h5 =>
     ⟨mainRun_configure_dispatch env args s a h1 h2 h3 h4 h5,
      mainRun_configure_state env args s a h1 h2 h3 h4 h5⟩,
   fun h1 h2 => mainRun_scan_ok env args ds h1 h2,
   fun h1 e h2 => mainRun_scan_error env args e h1 h2⟩

theorem exit_zero_when_dispatched_witness :
    (mainRun envAuthOK ⟨false, true, none, some "AA:BB", "pw"⟩).1 = ProcResult.exit 0 ∧
    (mainRun envAuthOK ⟨false, false, some "42", some "AA:BB", "pw"⟩).1 = ProcResult.exit 0 ∧
    (mainRun envAuthOK ⟨true, false, none, none, "pw"⟩).1 = ProcResult.exit 0 ∧
    (mainRun envBTOff ⟨true, false, none, none, "pw"⟩).1 =
      ProcResult.uncaught "Bluetooth adapter off" := by
  refine ⟨?_, ?_, ?_, ?_⟩
  · exact (exit_zero_when_dispatched envAuthOK ⟨false, true, none, some "AA:BB", "pw"⟩
      "42" "AA:BB" []).1 rfl rfl rfl
  · exact ((exit_zero_when_dispatched envAuthOK ⟨false, false, some "42", some "AA:BB", "pw"⟩
      "42" "AA:BB" []).2.1 rfl rfl rfl (by decide) rfl).1
  · exact (exit_zero_when_dispatched envAuthOK ⟨true, false, none, none, "pw"⟩
      "42" "AA:BB" []).2.2.1 rfl rfl
  · exact (exit_zero_when_dispatched envBTOff ⟨true, false, none, none, "pw"⟩
      "42" "AA:BB" []).2.2.2 rfl "Bluetooth adapter off" rfl

/-- C10: a scanned device whose advertised name is absent (`None`) is
classified as a non-FullWash device (the substring test is total: the
missing name is treated as `""`), is excluded from the returned list,
and its printed line shows the placeholder `(Unknown)`; the scan does
not fail on it. -/
theorem scan_handles_nameless_devices (env : Env) (ds : List Device) (d : Device)
    (h : env.discoverRes = Except.ok ds) (hd : d ∈ ds) (hn : d.name = none) :
    isFullwashDevice d = false ∧
    (scan_devices env initSt).1 = Except.ok (ds.filter isFullwashDevice) ∧
    d ∉ ds.filter isFullwashDevice ∧
    Event.print ("    " ++ padRight "(Unknown)" 30 ++ " | " ++ d.address) ∈
      (scan_devices env initSt).2.trace := by
  have hf : isFullwashDevice d = false := by
    simp only [isFullwashDevice, hn]
    decide
  refine ⟨hf, scan_devices_result env ds h, ?_, ?_⟩
  · intro hmem
    have hmf := (List.mem_filter.mp hmem).2
    rw [hf] at hmf
    simp at hmf
  · have hp := scan_devices_mem_print env ds d h hd
    simpa [hf, hn, pyOr] using hp

theorem scan_handles_nameless_witness :
    isFullwashDevice ⟨none, "CC:DD"⟩ = false ∧
    (scan_devices envScan initSt).1 =
      Except.ok (scanDevicesSample.filter isFullwashDevice) ∧
    (⟨none, "CC:DD"⟩ : Device) ∉ scanDevicesSample.filter isFullwashDevice ∧
    Event.print ("    " ++ padRight "(Unknown)" 30 ++ " | " ++ "CC:DD") ∈
      (scan_devices envScan initSt).2.trace :=
  scan_handles_nameless_devices envScan scanDevicesSample ⟨none, "CC:DD"⟩
    rfl (by decide) rfl
